import Mathlib

/-!
Verification development for the ESP32 music-manager synchronization engine
(`server/index.js`, the `/api/convert-and-flash` endpoint and its helpers).

The server code is embedded shallowly: filesystem and codec effects are
abstracted into an `Env` record of outcome functions, the device contents are
an explicit `DeviceState`, and the endpoint becomes the pure function
`convertAndFlash` that returns the streamed events, the HTTP response, the
final device state and a trace of mutating filesystem operations.  All
definitions follow the source line by line; line numbers in comments refer to
`server/index.js`.
-/

namespace ESP32Sync

/-- Raw file contents are modelled as lists of byte values. -/
abbrev Bytes := List Nat

/-! ## Path helpers

The server manipulates paths with Node's `path.basename` / `path.extname`
(always on forward-slash paths; the explicit `.replace(/\\/g,'/')` calls are
modelled by `normSlashes`). -/

/-- Model of `.replace(/\\/g, '/')` (lines 470, 503, 546).  Implemented on
the character list so that it evaluates by kernel reduction. -/
def normSlashes (s : String) : String :=
  ⟨s.data.map (fun c => if c = '\\' then '/' else c)⟩

/-- Splits a character list on a separator character; always returns at least
one (possibly empty) group. -/
def splitOnChar (sep : Char) : List Char → List (List Char)
  | [] => [[]]
  | c :: rest =>
    let r := splitOnChar sep rest
    if c = sep then [] :: r
    else
      match r with
      | [] => [[c]]
      | g :: gs => (c :: g) :: gs

/-- Model of Node `path.basename(p)` for forward-slash paths without a
trailing slash: the component after the last `/`. -/
def basenameOf (p : String) : String :=
  ⟨(splitOnChar '/' p.data).getLastD p.data⟩

/-- Character-list prefix test (used for the `/Volumes/` special case). -/
def leadMatch : List Char → List Char → Bool
  | [], _ => true
  | _ :: _, [] => false
  | a :: as, b :: bs => a == b && leadMatch as bs

/-- Model of `p.startsWith(s)` by kernel-reducible list recursion. -/
def strStartsWith (p s : String) : Bool :=
  leadMatch s.data p.data

/-- Splits a character list at its last dot: returns the part before the last
dot and the part from the last dot on.  `none` when there is no dot. -/
def lastDotSplit : List Char → Option (List Char × List Char)
  | [] => none
  | c :: rest =>
    match lastDotSplit rest with
    | some (pre, suf) => some (c :: pre, suf)
    | none => if c = '.' then some ([], c :: rest) else none

/-- Model of `path.basename(p, path.extname(p))` (lines 470, 503, 546, 558):
the basename with its extension removed.  Node's `path.extname` is empty when
the basename has no dot or starts with its only dot, in which case nothing is
stripped. -/
def stemOf (p : String) : String :=
  let b := basenameOf p
  match lastDotSplit b.data with
  | none => b
  | some (pre, _) => if pre = [] then b else String.mk pre

/-! ## Request data model (§6 of the spec, `req.body` at line 364) -/

/-- One member of a `musicFolders` entry: `{name, path}` (line 469). -/
structure FolderFile where
  name : String
  path : String
deriving DecidableEq, Repr

/-- One entry of `libraryStructure.musicFolders` (line 436). -/
structure Folder where
  name : String
  files : List FolderFile
deriving DecidableEq, Repr

/-- The `libraryStructure` request field. -/
structure LibraryStructure where
  musicFolders : List Folder
deriving DecidableEq, Repr

/-- One entry of the `files` request array (fields read at lines 514-520,
611-622). -/
structure FileEntry where
  name : String
  path : String
  song : Option String
  album : Option String
  artist : Option String
deriving DecidableEq, Repr

/-! ## Environment: abstracted filesystem / codec outcomes -/

/-- Result of `fs.stat(devicePath)` (lines 374-386). -/
inductive StatResult
  | notFound
  | plainFile
  | dir
deriving DecidableEq, Repr

/-- Outcomes of every effectful call the endpoint performs, keyed by path
where relevant.  A sync run is a pure function of this record, the request and
the initial device state. -/
structure Env where
  /-- `fs.stat(devicePath)` outcome (lines 374-386). -/
  deviceStat : StatResult
  /-- the `.write_test` probe on the device root succeeds (lines 389-398). -/
  rootProbe : Bool
  /-- `testDirectoryWritable(devicePath)` (lines 400-405, 861-880). -/
  rootProbe2 : Bool
  /-- `fs.mkdir(outputDir)` succeeds (lines 410-412). -/
  mkdirOutputOk : Bool
  /-- `testDirectoryWritable(outputDir)` (lines 414-419). -/
  outputProbe : Bool
  /-- `fs.access(p, R_OK)` succeeds for a source path (lines 575-595, 793-800). -/
  readable : String → Bool
  /-- the `err.code` attached to a failed source access, if any (lines 585-587). -/
  readErrCode : String → Option String
  /-- the ffmpeg decode of a source path: raw interleaved 16-bit PCM payload
  bytes, or the ffmpeg error message (lines 815-833). -/
  decode : String → Except String Bytes
  /-- `fs.writeFile(outputPath, pcmData)` rejection message, if it fails
  (line 824). -/
  writeFail : String → Option String
  /-- failure of the post-write `fs.access(outputPath, R_OK)` verification,
  carrying the underlying error message, which the code ignores (lines 601-608). -/
  verifyFail : String → Option String
  /-- `fs.unlink` of an obsolete artifact fails (lines 479-485). -/
  unlinkFail : String → Bool
  /-- writing the staged index to the temp dir fails (line 703). -/
  tempIndexWriteFail : Option String
  /-- reading/parsing the staged index back fails (lines 707-710). -/
  tempIndexVerifyFail : Option String
  /-- `fs.copyFile(tempIndexFilePath, indexFilePath)` fails (line 713). -/
  indexCopyFail : Option String
  /-- re-reading and parsing the index from the device succeeds (lines 717-740). -/
  finalIndexReadOk : Bool

/-! ## Device state, streamed events and operation trace -/

/-- The durable on-device state: the map relPath ↦ artifact bytes that
`scanPCMFiles` (lines 882-902) would discover under `ESP32_MUSIC`, plus the
contents of `index.json` (which does not end in `.pcm` and is never scanned). -/
structure DeviceState where
  music : List (String × Bytes)
  index : Option String
deriving DecidableEq, Repr

/-- One chunk of the streamed response (lines 448, 563, 589, 629, 723, 731,
759, 766). -/
inductive Event
  | status (step stat msg : String)
  | progress (file : String) (pct current total : Nat) (folder : String)
  | error (file msg : String)
  | complete (msg outputDir : String) (filesConverted totalFiles foldersCreated : Nat)
deriving DecidableEq, Repr

/-- Mutating filesystem operations performed on the device, in order. -/
inductive Op
  | unlink (relPath : String)
  | writeArtifact (relPath : String) (data : Bytes)
  | writeIndex (content : String)
deriving DecidableEq, Repr

def Event.isError : Event → Bool
  | .error _ _ => true
  | _ => false

def Event.isProgress : Event → Bool
  | .progress _ _ _ _ _ => true
  | _ => false

def Op.isUnlink : Op → Bool
  | .unlink _ => true
  | _ => false

def Op.isWriteArtifact : Op → Bool
  | .writeArtifact _ _ => true
  | _ => false

/-! ## Relative path and folder lookup (lines 466-473, 491-506, 522-552) -/

/-- Finds the first folder whose `files` contain an entry named `fname`
(lines 496-501 and identically 528-535). -/
def findTargetFolder (folders : List Folder) (fname : String) : Option String :=
  (folders.find? (fun folder =>
    (folder.files.find? (fun f => f.name = fname)).isSome)).map Folder.name

/-- The relative path computed for a request file (lines 502-506, recomputed
identically at 541-552): folder-qualified for files found in a folder, bare in
the root otherwise. -/
def relPathFor (folders : List Folder) (f : FileEntry) : String :=
  match findTargetFolder folders f.name with
  | some tf => normSlashes (tf ++ "/" ++ stemOf f.path ++ ".pcm")
  | none => stemOf f.path ++ ".pcm"

/-- The absolute destination path `outputPath` (lines 541-559). -/
def outputPathFor (outputDir : String) (folders : List Folder) (f : FileEntry) : String :=
  match findTargetFolder folders f.name with
  | some tf => outputDir ++ "/" ++ tf ++ "/" ++ (stemOf f.path ++ ".pcm")
  | none => outputDir ++ "/" ++ (stemOf f.path ++ ".pcm")

/-- The set of desired relative paths built from the library structure
(lines 467-473). -/
def desiredRelPaths (folders : List Folder) : List String :=
  (folders.map (fun folder => folder.files.map (fun file =>
    normSlashes (folder.name ++ "/" ++ stemOf file.path ++ ".pcm")))).flatten

/-! ## Header codec (older revision of `server/index.js` kept in the
repository; the current revision of `convertToPCM` no longer calls it) -/

/-- Two little-endian bytes, as `Buffer.writeUInt16LE`. -/
def le16 (n : Nat) : Bytes := [n % 256, n / 256 % 256]

/-- Four little-endian bytes, as `Buffer.writeUInt32LE`. -/
def le32 (n : Nat) : Bytes := [n % 256, n / 256 % 256, n / 65536 % 256, n / 16777216 % 256]

/-- ASCII bytes of the magic constant "ESP32PCM". -/
def magicESP32PCM : Bytes := [69, 83, 80, 51, 50, 80, 67, 77]

/-- The repository's `createPCMHeader(sampleRate, bitDepth, channels,
dataSize)`: 8-byte magic, 4-byte LE sample rate, 2-byte LE bit depth, 2-byte
LE channel count, 4-byte LE data size, 12 zero bytes. -/
def createPCMHeader (sampleRate bitDepth channels dataSize : Nat) : Bytes :=
  magicESP32PCM ++ le32 sampleRate ++ le16 bitDepth ++ le16 channels ++
    le32 dataSize ++ List.replicate 12 0

/-! ## Conversion (current `convertToPCM`, lines 790-835) -/

/-- Current `convertToPCM`: checks source readability, runs ffmpeg into a
private temp file, reads the payload back and writes it to `outputPath`.  An
`.ok payload` result means the destination file now holds exactly `payload` -
the raw PCM bytes with no header (line 824, `// Write plain PCM`).  An
`.error` result carries the rejection message; nothing was written to the
destination in that case. -/
def convertToPCM (env : Env) (inputPath outputPath : String) : Except String Bytes :=
  if env.readable inputPath = false then
    .error ("Source file not accessible: " ++ inputPath)
  else
    match env.decode inputPath with
    | .error m => .error ("FFmpeg error: " ++ m)
    | .ok payload =>
      match env.writeFail outputPath with
      | some m => .error m
      | none => .ok payload

/-- The error message built for an unreadable source file (lines 580-587). -/
def srcErrMsg (env : Env) (p : String) : String :=
  let base := "Source file not accessible: " ++ p
  let base := if strStartsWith p "/Volumes/" then
      base ++ " (file is on an external volume, check permissions and that the drive is mounted)"
    else base
  match env.readErrCode p with
  | some c => base ++ " [" ++ c ++ "]"
  | none => base

/-- `Math.round((processed / total) * 100)` on naturals (line 567):
round-half-up of `100 * processed / total`. -/
def jsRoundPct (processed total : Nat) : Nat :=
  (200 * processed + total) / (2 * total)

/-- Metadata pushed onto `convertedFiles` for a successful file (lines 611-622). -/
structure ConvertedFile where
  original : String
  converted : String
  name : String
  relativePath : String
  sampleRate : Nat
  bitDepth : Nat
  channels : Nat
  song : Option String
  album : Option String
  artist : Option String
deriving DecidableEq, Repr

/-- Replaces the contents stored under `rel`, or appends the entry if absent:
the effect of `fs.writeFile(outputPath, ...)` on the device map. -/
def setArtifact (m : List (String × Bytes)) (rel : String) (d : Bytes) :
    List (String × Bytes) :=
  if (m.find? (fun e => e.1 = rel)).isSome then
    m.map (fun e => if e.1 = rel then (rel, d) else e)
  else m ++ [(rel, d)]

/-- Mutable state of the conversion for-loop (lines 425-427, 491-635). -/
structure LoopSt where
  music : List (String × Bytes)
  events : List Event
  ops : List Op
  converted : List ConvertedFile
  processed : Nat
deriving Repr

/-- One iteration of the conversion loop (lines 491-635): skip when the
relative path already exists on device; otherwise emit a progress event, check
the source, convert (plain-PCM write), verify the destination exists, and on
full success record the metadata and bump `processedFiles`.  All failures emit
an error event and fall through to the next file. -/
def processFile (env : Env) (folders : List Folder) (outputDir : String)
    (total : Nat) (updatedExisting : List String) (st : LoopSt) (f : FileEntry) :
    LoopSt :=
  let rel := relPathFor folders f
  if updatedExisting.contains rel then
    st
  else
    let tf := findTargetFolder folders f.name
    let outPath := outputPathFor outputDir folders f
    let st1 :=
      { st with events := st.events ++
          [Event.progress f.name (jsRoundPct st.processed total) (st.processed + 1)
            total (tf.getD "root")] }
    if env.readable f.path = false then
      { st1 with events := st1.events ++ [Event.error f.name (srcErrMsg env f.path)] }
    else
      match convertToPCM env f.path outPath with
      | .error m => { st1 with events := st1.events ++ [Event.error f.name m] }
      | .ok payload =>
        let st2 :=
          { st1 with
            music := setArtifact st1.music rel payload,
            ops := st1.ops ++ [Op.writeArtifact rel payload] }
        match env.verifyFail outPath with
        | some _ =>
          { st2 with events := st2.events ++
              [Event.error f.name ("Failed to create output file: " ++ outPath)] }
        | none =>
          { st2 with
            converted := st2.converted ++
              [{ original := f.path, converted := outPath, name := f.name,
                 relativePath := rel, sampleRate := 44100, bitDepth := 16,
                 channels := 2, song := f.song, album := f.album,
                 artist := f.artist }],
            processed := st2.processed + 1 }

/-- The conversion for-loop over the request's `files`, in order. -/
def runFiles (env : Env) (folders : List Folder) (outputDir : String)
    (total : Nat) (updatedExisting : List String) :
    List FileEntry → LoopSt → LoopSt
  | [], st => st
  | f :: fs, st =>
    runFiles env folders outputDir total updatedExisting fs
      (processFile env folders outputDir total updatedExisting st f)

/-! ## Index construction (lines 647-687) -/

/-- Entry of `indexData.allFiles`. -/
structure IndexFileEntry where
  name : String
  path : String
  sampleRate : Nat
  bitDepth : Nat
  channels : Nat
  folderIndex : Int
  song : Option String
  album : Option String
  artist : Option String
deriving DecidableEq, Repr

/-- Entry of a folder's `files` list inside `indexData.musicFolders`. -/
structure IndexFolderFile where
  name : String
  path : String
  sampleRate : Nat
  bitDepth : Nat
  channels : Nat
  song : Option String
  album : Option String
  artist : Option String
deriving DecidableEq, Repr

/-- Entry of `indexData.musicFolders`. -/
structure IndexFolder where
  name : String
  files : List IndexFolderFile
deriving DecidableEq, Repr

/-- The in-memory `indexData` object (lines 654-687). -/
structure IndexData where
  version : String
  totalFiles : Nat
  allFiles : List IndexFileEntry
  musicFolders : List IndexFolder
deriving DecidableEq, Repr

/-- `musicFolders.findIndex(folder => folder.files.some(file => file.name ===
nm))` (line 651): `-1` when not found. -/
def folderIndexFor (folders : List Folder) (nm : String) : Int :=
  match folders.findIdx? (fun folder => folder.files.any (fun file => file.name = nm)) with
  | some i => (i : Int)
  | none => -1

/-- Builds `indexData` from `convertedFiles` and the request's folders
(lines 647-687).  Note it reads only `convertedFiles`: files skipped at
lines 507-510 contribute nothing. -/
def buildIndex (folders : List Folder) (converted : List ConvertedFile) : IndexData :=
  let normalized := converted.map (fun f =>
    { f with relativePath := normSlashes f.relativePath })
  { version := "1.1"
    totalFiles := normalized.length
    allFiles := normalized.map (fun f =>
      { name := f.name, path := f.relativePath, sampleRate := f.sampleRate,
        bitDepth := f.bitDepth, channels := f.channels,
        folderIndex := folderIndexFor folders f.name,
        song := f.song, album := f.album, artist := f.artist })
    musicFolders := folders.map (fun folder =>
      { name := folder.name
        files := folder.files.filterMap (fun file =>
          (normalized.find? (fun f => f.name = file.name)).map (fun cf =>
            { name := file.name, path := cf.relativePath,
              sampleRate := cf.sampleRate, bitDepth := cf.bitDepth,
              channels := cf.channels, song := cf.song, album := cf.album,
              artist := cf.artist })) }) }

/-! ## Index serialization: `JSON.stringify(indexData, null, 2)` (line 696) -/

/-- Opening brace as text. -/
def lcurl : String := "\x7b"

/-- Closing brace as text. -/
def rcurl : String := "\x7d"

/-- The escape sequence `JSON.stringify` emits for one character (the cases
that can occur in names and paths). -/
def escChar (c : Char) : List Char :=
  if c = '"' then ['\\', '"']
  else if c = '\\' then ['\\', '\\']
  else if c = '\n' then ['\\', 'n']
  else if c = '\r' then ['\\', 'r']
  else if c = '\t' then ['\\', 't']
  else [c]

/-- JSON string escaping. -/
def jsonEscape (s : String) : String :=
  ⟨(s.data.map escChar).flatten⟩

/-- Joins rendered items with a separator (kernel-reducible replacement for
library interleaving). -/
def joinSep (sep : String) : List String → String
  | [] => ""
  | [x] => x
  | x :: y :: xs => x ++ sep ++ joinSep sep (y :: xs)

/-- A JSON string literal. -/
def jstr (s : String) : String := "\"" ++ jsonEscape s ++ "\""

/-- A nullable JSON string (`null` for absent tags, as `file.song || null`). -/
def jnull : Option String → String
  | none => "null"
  | some s => jstr s

/-- Renders a multi-line JSON array with the given closing indentation; items
carry their own leading indentation, matching `JSON.stringify(-, null, 2)`. -/
def serArr (indent : String) (items : List String) : String :=
  if items.isEmpty then "[]"
  else "[\n" ++ joinSep ",\n" items ++ "\n" ++ indent ++ "]"

/-- Serializes one `allFiles` entry (array depth 2: fields at 6 spaces). -/
def serAllFile (f : IndexFileEntry) : String :=
  lcurl ++ "\n" ++
  "      " ++ jstr "name" ++ ": " ++ jstr f.name ++ ",\n" ++
  "      " ++ jstr "path" ++ ": " ++ jstr f.path ++ ",\n" ++
  "      " ++ jstr "sampleRate" ++ ": " ++ toString f.sampleRate ++ ",\n" ++
  "      " ++ jstr "bitDepth" ++ ": " ++ toString f.bitDepth ++ ",\n" ++
  "      " ++ jstr "channels" ++ ": " ++ toString f.channels ++ ",\n" ++
  "      " ++ jstr "folderIndex" ++ ": " ++ toString f.folderIndex ++ ",\n" ++
  "      " ++ jstr "song" ++ ": " ++ jnull f.song ++ ",\n" ++
  "      " ++ jstr "album" ++ ": " ++ jnull f.album ++ ",\n" ++
  "      " ++ jstr "artist" ++ ": " ++ jnull f.artist ++ "\n" ++
  "    " ++ rcurl

/-- Serializes one file entry inside a folder (array depth 4: fields at 10
spaces). -/
def serFolderFile (f : IndexFolderFile) : String :=
  lcurl ++ "\n" ++
  "          " ++ jstr "name" ++ ": " ++ jstr f.name ++ ",\n" ++
  "          " ++ jstr "path" ++ ": " ++ jstr f.path ++ ",\n" ++
  "          " ++ jstr "sampleRate" ++ ": " ++ toString f.sampleRate ++ ",\n" ++
  "          " ++ jstr "bitDepth" ++ ": " ++ toString f.bitDepth ++ ",\n" ++
  "          " ++ jstr "channels" ++ ": " ++ toString f.channels ++ ",\n" ++
  "          " ++ jstr "song" ++ ": " ++ jnull f.song ++ ",\n" ++
  "          " ++ jstr "album" ++ ": " ++ jnull f.album ++ ",\n" ++
  "          " ++ jstr "artist" ++ ": " ++ jnull f.artist ++ "\n" ++
  "        " ++ rcurl

/-- Serializes one `musicFolders` entry (array depth 2). -/
def serFolder (fo : IndexFolder) : String :=
  lcurl ++ "\n" ++
  "      " ++ jstr "name" ++ ": " ++ jstr fo.name ++ ",\n" ++
  "      " ++ jstr "files" ++ ": " ++
    serArr "      " (fo.files.map (fun f => "        " ++ serFolderFile f)) ++ "\n" ++
  "    " ++ rcurl

/-- The exact bytes of `index.json`: `JSON.stringify(indexData, null, 2)`. -/
def serializeIndex (d : IndexData) : String :=
  lcurl ++ "\n" ++
  "  " ++ jstr "version" ++ ": " ++ jstr d.version ++ ",\n" ++
  "  " ++ jstr "totalFiles" ++ ": " ++ toString d.totalFiles ++ ",\n" ++
  "  " ++ jstr "allFiles" ++ ": " ++
    serArr "  " (d.allFiles.map (fun f => "    " ++ serAllFile f)) ++ ",\n" ++
  "  " ++ jstr "musicFolders" ++ ": " ++
    serArr "  " (d.musicFolders.map (fun fo => "    " ++ serFolder fo)) ++ "\n" ++
  rcurl

/-! ## The endpoint -/

/-- Final HTTP outcome: the stream ended normally (`res.end()`, line 778) or a
single `res.status(500).json(error)` response was produced (line 785). -/
inductive Response
  | streamDone
  | fatal (msg : String)
deriving DecidableEq, Repr

/-- Everything observable about one sync run. -/
structure SyncOut where
  events : List Event
  response : Response
  state : DeviceState
  ops : List Op
  builtIndex : Option IndexData
  deleted : List String
deriving Repr

/-- The fatal message wrapper of the outer index-write catch (line 751). -/
def wrapIndexFatalMsg (m : String) : String :=
  "Failed to write index file to SD card: " ++ m ++
    ". Check if the card is full or write-protected."

/-- Index writing (lines 689-778): write the staged index to the private temp
directory, read it back and parse it, copy it onto the device, then re-read
and re-parse it from the device.  Failures of the first three steps propagate
to the outer catch (line 749) and produce the fatal `error` response; a
failure of the final on-device re-verification is only logged (lines 738-740)
and merely suppresses the `index` and `copy` status events, after which
cleanup, the `complete` event and `res.end()` still happen. -/
def indexPhase (env : Env) (outputDir : String) (folders : List Folder)
    (filesLen : Nat) (oldIndex : Option String) (deletedKeys : List String)
    (stL : LoopSt) : SyncOut :=
  let indexData := buildIndex folders stL.converted
  let content := serializeIndex indexData
  let wrapFatal : String → SyncOut := fun m =>
    { events := stL.events,
      response := .fatal (wrapIndexFatalMsg m),
      state := { music := stL.music, index := oldIndex },
      ops := stL.ops, builtIndex := some indexData, deleted := deletedKeys }
  match env.tempIndexWriteFail with
  | some m => wrapFatal m
  | none =>
    match env.tempIndexVerifyFail with
    | some m => wrapFatal m
    | none =>
      match env.indexCopyFail with
      | some m => wrapFatal m
      | none =>
        let stDev : DeviceState := { music := stL.music, index := some content }
        let opsW := stL.ops ++ [Op.writeIndex content]
        let tailEvents :=
          [Event.status "cleanup" "completed" "Temporary files cleaned up successfully",
           Event.complete ("Successfully converted " ++
             toString stL.converted.length ++ " files") outputDir
             stL.converted.length filesLen folders.length]
        if env.finalIndexReadOk = false then
          { events := stL.events ++ tailEvents,
            response := .streamDone, state := stDev, ops := opsW,
            builtIndex := some indexData, deleted := deletedKeys }
        else
          { events := stL.events ++
              [Event.status "index" "completed" ("Index file created with " ++
                 toString indexData.totalFiles ++ " files and " ++
                 toString indexData.musicFolders.length ++ " folders"),
               Event.status "copy" "completed"
                 "All files successfully copied to SD card"] ++ tailEvents,
            response := .streamDone, state := stDev, ops := opsW,
            builtIndex := some indexData, deleted := deletedKeys }

/-- The body of the endpoint after the preconditions have passed
(lines 425-778): per-folder directory creation and the `preparation` status,
the scan / desired-set diff (lines 461-473), deletion of obsolete artifacts
with swallowed unlink failures (lines 475-486), the re-scan (line 489), the
conversion loop, and the index phase. -/
def syncBody (env : Env) (files : List FileEntry) (lib : LibraryStructure)
    (devicePath : String) (st0 : DeviceState) : SyncOut :=
  let outputDir := devicePath ++ "/ESP32_MUSIC"
  let folders := lib.musicFolders
  let desired := desiredRelPaths folders
  let musicAfterDel := st0.music.filter (fun e =>
    desired.contains e.1 || env.unlinkFail e.1)
  let st1 : LoopSt :=
    { music := musicAfterDel,
      events := [Event.status "preparation" "completed"
        "Folder structure created successfully"],
      ops := (st0.music.filter (fun e => !(desired.contains e.1))).map
        (fun e => Op.unlink e.1),
      converted := [], processed := 0 }
  let stL := runFiles env folders outputDir files.length
    (musicAfterDel.map Prod.fst) files st1
  indexPhase env outputDir folders files.length st0.index
    ((st0.music.filter (fun e =>
      !(desired.contains e.1) && !(env.unlinkFail e.1))).map Prod.fst) stL

/-- The `/api/convert-and-flash` endpoint (lines 363-787): precondition
checks (device root is a directory, two writability probes, output directory
creation and probe), then `syncBody`.  Every precondition failure is thrown
before `res.writeHead` (line 430), so it yields a single non-streamed
`error` response and leaves the device contents untouched. -/
def convertAndFlash (env : Env) (files : List FileEntry) (lib : LibraryStructure)
    (devicePath : String) (st0 : DeviceState) : SyncOut :=
  if env.deviceStat ≠ StatResult.dir then
    { events := [], response := .fatal ("Device path not accessible: " ++ devicePath ++
        ". Make sure the SD card is properly inserted."),
      state := st0, ops := [], builtIndex := none, deleted := [] }
  else if env.rootProbe = false then
    { events := [], response := .fatal ("Device path not writable: " ++ devicePath ++
        ". Check if the SD card is write-protected."),
      state := st0, ops := [], builtIndex := none, deleted := [] }
  else if env.rootProbe2 = false then
    { events := [], response := .fatal
        "Device appears to be read-only or has permission issues. Please check if the SD card is write-protected.",
      state := st0, ops := [], builtIndex := none, deleted := [] }
  else if env.mkdirOutputOk = false ∨ env.outputProbe = false then
    { events := [], response := .fatal
        "Failed to create output directory on the SD card. Check if the card is full or write-protected.",
      state := st0, ops := [], builtIndex := none, deleted := [] }
  else
    syncBody env files lib devicePath st0

/-! ## Per-file summaries of one loop iteration

These recomputations of what `processFile` appends are used to state and
prove the loop decomposition lemmas. -/

/-- All preconditions of the endpoint hold. -/
def preOK (env : Env) : Prop :=
  env.deviceStat = StatResult.dir ∧ env.rootProbe = true ∧ env.rootProbe2 = true ∧
    env.mkdirOutputOk = true ∧ env.outputProbe = true

/-- The index phase hits no failure before the device copy completes. -/
def indexPhaseOK (env : Env) : Prop :=
  env.tempIndexWriteFail = none ∧ env.tempIndexVerifyFail = none ∧
    env.indexCopyFail = none

/-- The error events one file contributes to the stream. -/
def fileErrors (env : Env) (folders : List Folder) (outputDir : String)
    (updatedExisting : List String) (f : FileEntry) : List Event :=
  if updatedExisting.contains (relPathFor folders f) then []
  else if env.readable f.path = false then
    [Event.error f.name (srcErrMsg env f.path)]
  else
    match convertToPCM env f.path (outputPathFor outputDir folders f) with
    | .error m => [Event.error f.name m]
    | .ok _ =>
      match env.verifyFail (outputPathFor outputDir folders f) with
      | some _ =>
        [Event.error f.name
          ("Failed to create output file: " ++ outputPathFor outputDir folders f)]
      | none => []

/-- The `convertedFiles` entry one file contributes, if any. -/
def fileConverted (env : Env) (folders : List Folder) (outputDir : String)
    (updatedExisting : List String) (f : FileEntry) : Option ConvertedFile :=
  if updatedExisting.contains (relPathFor folders f) then none
  else if env.readable f.path = false then none
  else
    match convertToPCM env f.path (outputPathFor outputDir folders f) with
    | .error _ => none
    | .ok _ =>
      match env.verifyFail (outputPathFor outputDir folders f) with
      | some _ => none
      | none => some
          { original := f.path, converted := outputPathFor outputDir folders f,
            name := f.name, relativePath := relPathFor folders f,
            sampleRate := 44100, bitDepth := 16, channels := 2,
            song := f.song, album := f.album, artist := f.artist }

/-- The device-write operations one file contributes. -/
def fileOps (env : Env) (folders : List Folder) (outputDir : String)
    (updatedExisting : List String) (f : FileEntry) : List Op :=
  if updatedExisting.contains (relPathFor folders f) then []
  else if env.readable f.path = false then []
  else
    match convertToPCM env f.path (outputPathFor outputDir folders f) with
    | .error _ => []
    | .ok payload => [Op.writeArtifact (relPathFor folders f) payload]

/-- Whether a file is skipped by the already-on-device check (lines 507-510). -/
def fileSkipped (folders : List Folder) (updatedExisting : List String)
    (f : FileEntry) : Bool :=
  updatedExisting.contains (relPathFor folders f)

/-- The `current` values carried by the progress events of a stream, in
order. -/
def progressCurrents (evs : List Event) : List Nat :=
  evs.filterMap (fun e => match e with
    | .progress _ _ c _ _ => some c
    | _ => none)

/-- The `total` values carried by the progress events of a stream. -/
def progressTotals (evs : List Event) : List Nat :=
  evs.filterMap (fun e => match e with
    | .progress _ _ _ t _ => some t
    | _ => none)

/-- The device-write operation the index phase appends: the `index.json` copy
when all three staged steps succeed, nothing when the phase dies earlier. -/
def indexExtraOps (env : Env) (content : String) : List Op :=
  match env.tempIndexWriteFail with
  | some _ => []
  | none =>
    match env.tempIndexVerifyFail with
    | some _ => []
    | none =>
      match env.indexCopyFail with
      | some _ => []
      | none => [Op.writeIndex content]

/-! ## Concrete scenarios

Small closed instances used to evaluate the endpoint on explicit inputs. -/

/-- Environment in which every effect succeeds and every source decodes to
the four-byte payload `[1, 2, 3, 4]`. -/
def envOK : Env :=
  { deviceStat := .dir, rootProbe := true, rootProbe2 := true,
    mkdirOutputOk := true, outputProbe := true,
    readable := fun _ => true, readErrCode := fun _ => none,
    decode := fun _ => .ok [1, 2, 3, 4],
    writeFail := fun _ => none, verifyFail := fun _ => none,
    unlinkFail := fun _ => false,
    tempIndexWriteFail := none, tempIndexVerifyFail := none,
    indexCopyFail := none, finalIndexReadOk := true }

/-- Library with two folders of one song each. -/
def popRockLib : LibraryStructure :=
  { musicFolders :=
      [{ name := "Pop", files := [{ name := "song1.mp3", path := "/music/song1.mp3" }] },
       { name := "Rock", files := [{ name := "song2.mp3", path := "/music/song2.mp3" }] }] }

/-- The request `files` array matching `popRockLib`. -/
def popRockFiles : List FileEntry :=
  [{ name := "song1.mp3", path := "/music/song1.mp3", song := none, album := none, artist := none },
   { name := "song2.mp3", path := "/music/song2.mp3", song := none, album := none, artist := none }]

/-- A device with no artifacts and no index. -/
def emptyDevice : DeviceState := { music := [], index := none }

/-- First sync of `popRockLib` onto an empty device. -/
def runFirst : SyncOut := convertAndFlash envOK popRockFiles popRockLib "/sd" emptyDevice

/-- Second sync with the identical request against the device state the first
sync left behind. -/
def runSecond : SyncOut := convertAndFlash envOK popRockFiles popRockLib "/sd" runFirst.state

/-- Library with the single folder `Pop` containing `song1`. -/
def popLib : LibraryStructure :=
  { musicFolders :=
      [{ name := "Pop", files := [{ name := "song1.mp3", path := "/music/song1.mp3" }] }] }

/-- The request `files` array matching `popLib`. -/
def popFiles : List FileEntry :=
  [{ name := "song1.mp3", path := "/music/song1.mp3", song := none, album := none, artist := none }]

/-- A device that already holds the artifact desired by `popLib`. -/
def preloadedDevice : DeviceState :=
  { music := [("Pop/song1.pcm", [9, 9])], index := none }

/-- Sync of `popLib` against the device that already holds its artifact. -/
def runSkip : SyncOut := convertAndFlash envOK popFiles popLib "/sd" preloadedDevice

/-- Like `envOK` but the final on-device index re-verification fails. -/
def envNoFinalRead : Env := { envOK with finalIndexReadOk := false }

/-- Sync run in which only the final on-device index re-read fails. -/
def runNoFinal : SyncOut := convertAndFlash envNoFinalRead popFiles popLib "/sd" emptyDevice

/-- Like `envOK` but the post-write destination verification fails with an
out-of-space cause. -/
def envVerifyNoSpace : Env :=
  { envOK with verifyFail := fun _ => some "ENOSPC: no space left on device" }

/-- Like `envOK` but the post-write destination verification fails with a
read-only-filesystem cause. -/
def envVerifyReadOnly : Env :=
  { envOK with verifyFail := fun _ => some "EROFS: read-only file system" }

/-- Sync run with the out-of-space verification failure. -/
def runVerifyNoSpace : SyncOut := convertAndFlash envVerifyNoSpace popFiles popLib "/sd" emptyDevice

/-- Sync run with the read-only verification failure. -/
def runVerifyReadOnly : SyncOut := convertAndFlash envVerifyReadOnly popFiles popLib "/sd" emptyDevice

/-- A device that already holds `Pop/song1.pcm` but not `Rock/song2.pcm`. -/
def halfDevice : DeviceState :=
  { music := [("Pop/song1.pcm", [1, 2, 3, 4])], index := none }

/-- Sync of `popRockLib` when one of its two files is already on the device. -/
def runHalf : SyncOut := convertAndFlash envOK popRockFiles popRockLib "/sd" halfDevice

/-- Like `envOK` but the source `/music/song2.mp3` is unreadable. -/
def envBadSource : Env :=
  { envOK with readable := fun p => !(p == "/music/song2.mp3") }

/-- The second entry of `popRockFiles`: the one with the unreadable source. -/
def badEntry : FileEntry :=
  { name := "song2.mp3", path := "/music/song2.mp3", song := none, album := none, artist := none }

/-- Like `envOK` but writing the destination `Rock/song2.pcm` fails. -/
def envBadWrite : Env :=
  { envOK with writeFail := fun p =>
      if p == "/sd/ESP32_MUSIC/Rock/song2.pcm" then some "boom" else none }

/-- Like `envOK` but writing the staged index fails. -/
def envIndexWriteFail : Env :=
  { envOK with tempIndexWriteFail := some "disk error" }

/-- Like `envOK` but the device holds a stale artifact whose unlink fails. -/
def envStaleUnlink : Env :=
  { envOK with unlinkFail := fun p => p == "Stale/old.pcm" }

/-- A device with one stale artifact whose deletion will fail and one whose
deletion will succeed. -/
def staleDevice : DeviceState :=
  { music := [("Stale/old.pcm", [7]), ("Gone/x.pcm", [8])], index := none }

/-- Environment whose every precondition probe succeeds except the explicit
`testDirectoryWritable` check on the device root. -/
def envReadOnlyRoot : Env := { envOK with rootProbe2 := false }

/-! ## Decomposition lemmas for the conversion loop -/

theorem convertAndFlash_of_preOK (env : Env) (files : List FileEntry)
    (lib : LibraryStructure) (devicePath : String) (st0 : DeviceState)
    (h : preOK env) :
    convertAndFlash env files lib devicePath st0 =
      syncBody env files lib devicePath st0 := by
  obtain ⟨h1, h2, h3, h4, h5⟩ := h
  simp [convertAndFlash, h1, h2, h3, h4, h5]

theorem mem_setArtifact_keys (m : List (String × Bytes)) (rel : String)
    (d : Bytes) (k : String) (h : k ∈ m.map Prod.fst ∨ k = rel) :
    k ∈ (setArtifact m rel d).map Prod.fst := by
  unfold setArtifact
  split
  · next hf =>
    rcases h with h | rfl
    · simp only [List.map_map, List.mem_map] at h ⊢
      obtain ⟨e, he, hk⟩ := h
      refine ⟨e, he, ?_⟩
      show (if e.1 = rel then (rel, d) else e).1 = k
      by_cases hrel : e.1 = rel
      · rw [if_pos hrel]
        exact hrel ▸ hk
      · rw [if_neg hrel]
        exact hk
    · rw [Option.isSome_iff_exists] at hf
      obtain ⟨e, he⟩ := hf
      have hmem := List.mem_of_find?_eq_some he
      have hpe := List.find?_some he
      simp only [decide_eq_true_eq] at hpe
      simp only [List.map_map, List.mem_map]
      exact ⟨e, hmem, by simp [Function.comp, hpe]⟩
  · rcases h with h | rfl
    · simp only [List.map_append, List.mem_append]
      exact Or.inl h
    · simp

theorem processFile_errors (env : Env) (folders : List Folder)
    (outputDir : String) (total : Nat) (ue : List String) (st : LoopSt)
    (f : FileEntry) :
    (processFile env folders outputDir total ue st f).events.filter Event.isError =
      st.events.filter Event.isError ++ fileErrors env folders outputDir ue f := by
  unfold processFile fileErrors
  by_cases hskip : relPathFor folders f ∈ ue
  · simp [hskip]
  · by_cases hread : env.readable f.path = false
    · simp [hskip, hread, Event.isError, List.filter_append]
    · cases hconv : convertToPCM env f.path (outputPathFor outputDir folders f) with
      | error m =>
        simp [hskip, hread, hconv, Event.isError, List.filter_append]
      | ok payload =>
        cases hver : env.verifyFail (outputPathFor outputDir folders f) with
        | none => simp [hskip, hread, hconv, hver, Event.isError, List.filter_append]
        | some m => simp [hskip, hread, hconv, hver, Event.isError, List.filter_append]

theorem processFile_converted (env : Env) (folders : List Folder)
    (outputDir : String) (total : Nat) (ue : List String) (st : LoopSt)
    (f : FileEntry) :
    (processFile env folders outputDir total ue st f).converted =
      st.converted ++ (fileConverted env folders outputDir ue f).toList := by
  unfold processFile fileConverted
  by_cases hskip : relPathFor folders f ∈ ue
  · simp [hskip]
  · by_cases hread : env.readable f.path = false
    · simp [hskip, hread]
    · cases hconv : convertToPCM env f.path (outputPathFor outputDir folders f) with
      | error m => simp [hskip, hread, hconv]
      | ok payload =>
        cases hver : env.verifyFail (outputPathFor outputDir folders f) with
        | none => simp [hskip, hread, hconv, hver]
        | some m => simp [hskip, hread, hconv, hver]

theorem processFile_ops (env : Env) (folders : List Folder)
    (outputDir : String) (total : Nat) (ue : List String) (st : LoopSt)
    (f : FileEntry) :
    (processFile env folders outputDir total ue st f).ops =
      st.ops ++ fileOps env folders outputDir ue f := by
  unfold processFile fileOps
  by_cases hskip : relPathFor folders f ∈ ue
  · simp [hskip]
  · by_cases hread : env.readable f.path = false
    · simp [hskip, hread]
    · cases hconv : convertToPCM env f.path (outputPathFor outputDir folders f) with
      | error m => simp [hskip, hread, hconv]
      | ok payload =>
        cases hver : env.verifyFail (outputPathFor outputDir folders f) with
        | none => simp [hskip, hread, hconv, hver]
        | some m => simp [hskip, hread, hconv, hver]

theorem processFile_progressCurrents (env : Env) (folders : List Folder)
    (outputDir : String) (total : Nat) (ue : List String) (st : LoopSt)
    (f : FileEntry) :
    progressCurrents (processFile env folders outputDir total ue st f).events =
      progressCurrents st.events ++
        (if fileSkipped folders ue f then [] else [st.processed + 1]) := by
  unfold processFile fileSkipped
  by_cases hskip : relPathFor folders f ∈ ue
  · simp [hskip]
  · by_cases hread : env.readable f.path = false
    · simp [hskip, hread, progressCurrents, List.filterMap_append]
    · cases hconv : convertToPCM env f.path (outputPathFor outputDir folders f) with
      | error m =>
        simp [hskip, hread, hconv, progressCurrents, List.filterMap_append]
      | ok payload =>
        cases hver : env.verifyFail (outputPathFor outputDir folders f) with
        | none =>
          simp [hskip, hread, hconv, hver, progressCurrents, List.filterMap_append]
        | some m =>
          simp [hskip, hread, hconv, hver, progressCurrents, List.filterMap_append]

theorem processFile_progressTotals (env : Env) (folders : List Folder)
    (outputDir : String) (total : Nat) (ue : List String) (st : LoopSt)
    (f : FileEntry) :
    progressTotals (processFile env folders outputDir total ue st f).events =
      progressTotals st.events ++
        (if fileSkipped folders ue f then [] else [total]) := by
  unfold processFile fileSkipped
  by_cases hskip : relPathFor folders f ∈ ue
  · simp [hskip]
  · by_cases hread : env.readable f.path = false
    · simp [hskip, hread, progressTotals, List.filterMap_append]
    · cases hconv : convertToPCM env f.path (outputPathFor outputDir folders f) with
      | error m =>
        simp [hskip, hread, hconv, progressTotals, List.filterMap_append]
      | ok payload =>
        cases hver : env.verifyFail (outputPathFor outputDir folders f) with
        | none =>
          simp [hskip, hread, hconv, hver, progressTotals, List.filterMap_append]
        | some m =>
          simp [hskip, hread, hconv, hver, progressTotals, List.filterMap_append]

theorem processFile_processed (env : Env) (folders : List Folder)
    (outputDir : String) (total : Nat) (ue : List String) (st : LoopSt)
    (f : FileEntry) :
    (processFile env folders outputDir total ue st f).processed =
      st.processed + (fileConverted env folders outputDir ue f).toList.length := by
  unfold processFile fileConverted
  by_cases hskip : relPathFor folders f ∈ ue
  · simp [hskip]
  · by_cases hread : env.readable f.path = false
    · simp [hskip, hread]
    · cases hconv : convertToPCM env f.path (outputPathFor outputDir folders f) with
      | error m => simp [hskip, hread, hconv]
      | ok payload =>
        cases hver : env.verifyFail (outputPathFor outputDir folders f) with
        | none => simp [hskip, hread, hconv, hver]
        | some m => simp [hskip, hread, hconv, hver]

theorem processFile_music (env : Env) (folders : List Folder)
    (outputDir : String) (total : Nat) (ue : List String) (st : LoopSt)
    (f : FileEntry) :
    (processFile env folders outputDir total ue st f).music = st.music ∨
      ∃ payload, (processFile env folders outputDir total ue st f).music =
        setArtifact st.music (relPathFor folders f) payload := by
  unfold processFile
  by_cases hskip : relPathFor folders f ∈ ue
  · exact Or.inl (by simp [hskip])
  · by_cases hread : env.readable f.path = false
    · exact Or.inl (by simp [hskip, hread])
    · cases hconv : convertToPCM env f.path (outputPathFor outputDir folders f) with
      | error m => exact Or.inl (by simp [hskip, hread, hconv])
      | ok payload =>
        cases hver : env.verifyFail (outputPathFor outputDir folders f) with
        | none => exact Or.inr ⟨payload, by simp [hskip, hread, hconv, hver]⟩
        | some m => exact Or.inr ⟨payload, by simp [hskip, hread, hconv, hver]⟩

theorem processFile_keys_mono (env : Env) (folders : List Folder)
    (outputDir : String) (total : Nat) (ue : List String) (st : LoopSt)
    (f : FileEntry) (k : String) (h : k ∈ st.music.map Prod.fst) :
    k ∈ (processFile env folders outputDir total ue st f).music.map Prod.fst := by
  rcases processFile_music env folders outputDir total ue st f with hm | ⟨payload, hm⟩
  · rw [hm]
    exact h
  · rw [hm]
    exact mem_setArtifact_keys st.music (relPathFor folders f) payload k (Or.inl h)

theorem processFile_ops_music (env : Env) (folders : List Folder)
    (outputDir : String) (total : Nat) (ue : List String) (st : LoopSt)
    (f : FileEntry) :
    (fileOps env folders outputDir ue f = [] ∧
       (processFile env folders outputDir total ue st f).music = st.music) ∨
      ∃ payload,
        fileOps env folders outputDir ue f =
            [Op.writeArtifact (relPathFor folders f) payload] ∧
          (processFile env folders outputDir total ue st f).music =
            setArtifact st.music (relPathFor folders f) payload := by
  unfold processFile fileOps
  by_cases hskip : relPathFor folders f ∈ ue
  · exact Or.inl ⟨by simp [hskip], by simp [hskip]⟩
  · by_cases hread : env.readable f.path = false
    · exact Or.inl ⟨by simp [hskip, hread], by simp [hskip, hread]⟩
    · cases hconv : convertToPCM env f.path (outputPathFor outputDir folders f) with
      | error m =>
        exact Or.inl ⟨by simp [hskip, hread, hconv], by simp [hskip, hread, hconv]⟩
      | ok payload =>
        cases hver : env.verifyFail (outputPathFor outputDir folders f) with
        | none =>
          exact Or.inr ⟨payload, by simp [hskip, hread, hconv],
            by simp [hskip, hread, hconv, hver]⟩
        | some m =>
          exact Or.inr ⟨payload, by simp [hskip, hread, hconv],
            by simp [hskip, hread, hconv, hver]⟩

theorem processFile_opsCovered (env : Env) (folders : List Folder)
    (outputDir : String) (total : Nat) (ue : List String) (st : LoopSt)
    (f : FileEntry)
    (h : ∀ rel d, Op.writeArtifact rel d ∈ st.ops → rel ∈ st.music.map Prod.fst) :
    ∀ rel d, Op.writeArtifact rel d ∈ (processFile env folders outputDir total ue st f).ops →
      rel ∈ (processFile env folders outputDir total ue st f).music.map Prod.fst := by
  intro rel d hop
  have hops := processFile_ops env folders outputDir total ue st f
  rw [hops] at hop
  rcases List.mem_append.mp hop with hin | hin
  · exact processFile_keys_mono env folders outputDir total ue st f rel (h rel d hin)
  · rcases processFile_ops_music env folders outputDir total ue st f with
      ⟨hnil, _⟩ | ⟨q, hone, hm⟩
    · rw [hnil] at hin
      cases hin
    · rw [hone, List.mem_singleton] at hin
      injection hin with h1 h2
      subst h1
      rw [hm]
      exact mem_setArtifact_keys _ _ _ _ (Or.inr rfl)

theorem runFiles_errors (env : Env) (folders : List Folder) (outputDir : String)
    (total : Nat) (ue : List String) (fs : List FileEntry) :
    ∀ st : LoopSt,
      (runFiles env folders outputDir total ue fs st).events.filter Event.isError =
        st.events.filter Event.isError ++
          (fs.map (fileErrors env folders outputDir ue)).flatten := by
  induction fs with
  | nil => intro st; simp [runFiles]
  | cons f fs ih =>
    intro st
    rw [runFiles, ih, processFile_errors]
    simp [List.append_assoc]

theorem runFiles_converted (env : Env) (folders : List Folder) (outputDir : String)
    (total : Nat) (ue : List String) (fs : List FileEntry) :
    ∀ st : LoopSt,
      (runFiles env folders outputDir total ue fs st).converted =
        st.converted ++ fs.filterMap (fileConverted env folders outputDir ue) := by
  induction fs with
  | nil => intro st; simp [runFiles]
  | cons f fs ih =>
    intro st
    rw [runFiles, ih, processFile_converted]
    cases hc : fileConverted env folders outputDir ue f with
    | none => simp [List.filterMap_cons, hc]
    | some c => simp [List.filterMap_cons, hc]

theorem runFiles_ops (env : Env) (folders : List Folder) (outputDir : String)
    (total : Nat) (ue : List String) (fs : List FileEntry) :
    ∀ st : LoopSt,
      (runFiles env folders outputDir total ue fs st).ops =
        st.ops ++ (fs.map (fileOps env folders outputDir ue)).flatten := by
  induction fs with
  | nil => intro st; simp [runFiles]
  | cons f fs ih =>
    intro st
    rw [runFiles, ih, processFile_ops]
    simp [List.append_assoc]

theorem runFiles_keys_mono (env : Env) (folders : List Folder) (outputDir : String)
    (total : Nat) (ue : List String) (fs : List FileEntry) :
    ∀ (st : LoopSt) (k : String), k ∈ st.music.map Prod.fst →
      k ∈ (runFiles env folders outputDir total ue fs st).music.map Prod.fst := by
  induction fs with
  | nil => intro st k h; simpa [runFiles] using h
  | cons f fs ih =>
    intro st k h
    rw [runFiles]
    exact ih _ k (processFile_keys_mono env folders outputDir total ue st f k h)

theorem runFiles_opsCovered (env : Env) (folders : List Folder) (outputDir : String)
    (total : Nat) (ue : List String) (fs : List FileEntry) :
    ∀ st : LoopSt,
      (∀ rel d, Op.writeArtifact rel d ∈ st.ops → rel ∈ st.music.map Prod.fst) →
      ∀ rel d, Op.writeArtifact rel d ∈ (runFiles env folders outputDir total ue fs st).ops →
        rel ∈ (runFiles env folders outputDir total ue fs st).music.map Prod.fst := by
  induction fs with
  | nil => intro st h; simpa [runFiles] using h
  | cons f fs ih =>
    intro st h
    rw [runFiles]
    exact ih _ (processFile_opsCovered env folders outputDir total ue st f h)

theorem runFiles_totals (env : Env) (folders : List Folder) (outputDir : String)
    (total : Nat) (ue : List String) (fs : List FileEntry) :
    ∀ st : LoopSt, (∀ t ∈ progressTotals st.events, t = total) →
      ∀ t ∈ progressTotals (runFiles env folders outputDir total ue fs st).events,
        t = total := by
  induction fs with
  | nil => intro st h; simpa [runFiles] using h
  | cons f fs ih =>
    intro st h
    rw [runFiles]
    refine ih _ ?_
    rw [processFile_progressTotals]
    intro t ht
    rcases List.mem_append.mp ht with ht | ht
    · exact h t ht
    · by_cases hskip : fileSkipped folders ue f = true
      · rw [if_pos hskip] at ht
        cases ht
      · rw [if_neg hskip] at ht
        rw [List.mem_singleton] at ht
        exact ht

theorem runFiles_progress_count (env : Env) (folders : List Folder)
    (outputDir : String) (total : Nat) (ue : List String) (fs : List FileEntry) :
    ∀ st : LoopSt,
      (progressCurrents (runFiles env folders outputDir total ue fs st).events).length =
        (progressCurrents st.events).length +
          (fs.filter (fun f => !(fileSkipped folders ue f))).length := by
  induction fs with
  | nil => intro st; simp [runFiles]
  | cons f fs ih =>
    intro st
    rw [runFiles, ih, processFile_progressCurrents]
    by_cases hskip : fileSkipped folders ue f = true
    · simp [hskip]
    · rw [if_neg hskip]
      simp only [List.filter_cons]
      rw [Bool.not_eq_true] at hskip
      simp [hskip, Nat.add_assoc, Nat.add_comm 1]

theorem runFiles_progress_chain (env : Env) (folders : List Folder)
    (outputDir : String) (total : Nat) (ue : List String) (fs : List FileEntry) :
    ∀ st : LoopSt,
      List.Chain' (· ≤ ·) (progressCurrents st.events) →
      (∀ c ∈ progressCurrents st.events, c ≤ st.processed + 1) →
      List.Chain' (· ≤ ·)
          (progressCurrents (runFiles env folders outputDir total ue fs st).events) ∧
        ∀ c ∈ progressCurrents (runFiles env folders outputDir total ue fs st).events,
          c ≤ (runFiles env folders outputDir total ue fs st).processed + 1 := by
  induction fs with
  | nil => intro st h1 h2; exact ⟨h1, h2⟩
  | cons f fs ih =>
    intro st h1 h2
    rw [runFiles]
    have hpc := processFile_progressCurrents env folders outputDir total ue st f
    have hpp := processFile_processed env folders outputDir total ue st f
    have hmono : st.processed ≤ (processFile env folders outputDir total ue st f).processed := by
      rw [hpp]
      exact Nat.le_add_right _ _
    refine ih _ ?_ ?_
    · rw [hpc]
      by_cases hskip : fileSkipped folders ue f = true
      · simpa [hskip] using h1
      · rw [if_neg hskip]
        rw [List.chain'_append]
        refine ⟨h1, List.chain'_singleton _, ?_⟩
        intro x hx y hy
        rw [List.head?_cons, Option.mem_some_iff] at hy
        subst hy
        exact h2 x (List.mem_of_mem_getLast? hx)
    · rw [hpc]
      intro c hc
      rcases List.mem_append.mp hc with hc | hc
      · exact le_trans (h2 c hc) (Nat.succ_le_succ hmono)
      · by_cases hskip : fileSkipped folders ue f = true
        · rw [if_pos hskip] at hc
          cases hc
        · rw [if_neg hskip] at hc
          rw [List.mem_singleton] at hc
          subst hc
          exact Nat.succ_le_succ hmono

/-! ## Case lemmas for the index phase -/

theorem indexPhase_write_fatal (env : Env) (outputDir : String)
    (folders : List Folder) (filesLen : Nat) (oldIndex : Option String)
    (deletedKeys : List String) (stL : LoopSt) (m : String)
    (h : env.tempIndexWriteFail = some m) :
    indexPhase env outputDir folders filesLen oldIndex deletedKeys stL =
      { events := stL.events, response := .fatal (wrapIndexFatalMsg m),
        state := { music := stL.music, index := oldIndex },
        ops := stL.ops, builtIndex := some (buildIndex folders stL.converted),
        deleted := deletedKeys } := by
  simp [indexPhase, h]

theorem indexPhase_verify_fatal (env : Env) (outputDir : String)
    (folders : List Folder) (filesLen : Nat) (oldIndex : Option String)
    (deletedKeys : List String) (stL : LoopSt) (m : String)
    (h1 : env.tempIndexWriteFail = none) (h2 : env.tempIndexVerifyFail = some m) :
    indexPhase env outputDir folders filesLen oldIndex deletedKeys stL =
      { events := stL.events, response := .fatal (wrapIndexFatalMsg m),
        state := { music := stL.music, index := oldIndex },
        ops := stL.ops, builtIndex := some (buildIndex folders stL.converted),
        deleted := deletedKeys } := by
  simp [indexPhase, h1, h2]

theorem indexPhase_copy_fatal (env : Env) (outputDir : String)
    (folders : List Folder) (filesLen : Nat) (oldIndex : Option String)
    (deletedKeys : List String) (stL : LoopSt) (m : String)
    (h1 : env.tempIndexWriteFail = none) (h2 : env.tempIndexVerifyFail = none)
    (h3 : env.indexCopyFail = some m) :
    indexPhase env outputDir folders filesLen oldIndex deletedKeys stL =
      { events := stL.events, response := .fatal (wrapIndexFatalMsg m),
        state := { music := stL.music, index := oldIndex },
        ops := stL.ops, builtIndex := some (buildIndex folders stL.converted),
        deleted := deletedKeys } := by
  simp [indexPhase, h1, h2, h3]

theorem indexPhase_ok_skipverify (env : Env) (outputDir : String)
    (folders : List Folder) (filesLen : Nat) (oldIndex : Option String)
    (deletedKeys : List String) (stL : LoopSt)
    (h : indexPhaseOK env) (hf : env.finalIndexReadOk = false) :
    indexPhase env outputDir folders filesLen oldIndex deletedKeys stL =
      { events := stL.events ++
          [Event.status "cleanup" "completed" "Temporary files cleaned up successfully",
           Event.complete ("Successfully converted " ++
             toString stL.converted.length ++ " files") outputDir
             stL.converted.length filesLen folders.length],
        response := .streamDone,
        state :=
          { music := stL.music,
            index := some (serializeIndex (buildIndex folders stL.converted)) },
        ops := stL.ops ++ [Op.writeIndex (serializeIndex (buildIndex folders stL.converted))],
        builtIndex := some (buildIndex folders stL.converted),
        deleted := deletedKeys } := by
  obtain ⟨h1, h2, h3⟩ := h
  simp [indexPhase, h1, h2, h3, hf]

theorem indexPhase_ok_full (env : Env) (outputDir : String)
    (folders : List Folder) (filesLen : Nat) (oldIndex : Option String)
    (deletedKeys : List String) (stL : LoopSt)
    (h : indexPhaseOK env) (hf : env.finalIndexReadOk = true) :
    indexPhase env outputDir folders filesLen oldIndex deletedKeys stL =
      { events := stL.events ++
          [Event.status "index" "completed" ("Index file created with " ++
             toString (buildIndex folders stL.converted).totalFiles ++ " files and " ++
             toString (buildIndex folders stL.converted).musicFolders.length ++ " folders"),
           Event.status "copy" "completed" "All files successfully copied to SD card"] ++
          [Event.status "cleanup" "completed" "Temporary files cleaned up successfully",
           Event.complete ("Successfully converted " ++
             toString stL.converted.length ++ " files") outputDir
             stL.converted.length filesLen folders.length],
        response := .streamDone,
        state :=
          { music := stL.music,
            index := some (serializeIndex (buildIndex folders stL.converted)) },
        ops := stL.ops ++ [Op.writeIndex (serializeIndex (buildIndex folders stL.converted))],
        builtIndex := some (buildIndex folders stL.converted),
        deleted := deletedKeys } := by
  obtain ⟨h1, h2, h3⟩ := h
  simp [indexPhase, h1, h2, h3, hf]

theorem indexPhase_response_ok (env : Env) (outputDir : String)
    (folders : List Folder) (filesLen : Nat) (oldIndex : Option String)
    (deletedKeys : List String) (stL : LoopSt) (h : indexPhaseOK env) :
    (indexPhase env outputDir folders filesLen oldIndex deletedKeys stL).response =
      Response.streamDone := by
  cases hf : env.finalIndexReadOk with
  | false => rw [indexPhase_ok_skipverify env outputDir folders filesLen oldIndex deletedKeys stL h hf]
  | true => rw [indexPhase_ok_full env outputDir folders filesLen oldIndex deletedKeys stL h hf]

/-! ## Small helpers -/

theorem fileOps_no_unlink (env : Env) (folders : List Folder) (outputDir : String)
    (ue : List String) (f : FileEntry) (op : Op)
    (hop : op ∈ fileOps env folders outputDir ue f) : op.isUnlink = false := by
  unfold fileOps at hop
  split at hop
  · cases hop
  · split at hop
    · cases hop
    · split at hop
      · cases hop
      · rw [List.mem_singleton] at hop
        subst hop
        rfl

theorem filter_congr_list {α : Type} (l : List α) (p q : α → Bool)
    (h : ∀ x ∈ l, p x = q x) : l.filter p = l.filter q := by
  induction l with
  | nil => rfl
  | cons a t ih =>
    rw [List.filter_cons, List.filter_cons, h a (List.mem_cons_self a t),
      ih (fun x hx => h x (List.mem_cons_of_mem a hx))]

theorem map_fst_filter_comm (l : List (String × Bytes)) (q : String → Bool) :
    (l.map Prod.fst).filter q = (l.filter (fun e => q e.1)).map Prod.fst := by
  induction l with
  | nil => rfl
  | cons a t ih =>
    by_cases hq : q a.1 = true
    · simp [List.filter_cons, hq, ih]
    · rw [Bool.not_eq_true] at hq
      simp [List.filter_cons, hq, ih]

theorem flatten_map_eq_nil {α β : Type} (l : List α) (g : α → List β)
    (h : ∀ x ∈ l, g x = []) : (l.map g).flatten = [] := by
  induction l with
  | nil => rfl
  | cons a t ih =>
    simp only [List.map_cons, List.flatten_cons, h a (List.mem_cons_self a t)]
    exact ih (fun x hx => h x (List.mem_cons_of_mem a hx))

theorem flatten_map_single {α β : Type} [DecidableEq α] (l : List α)
    (g : α → List β) (a : α) (hc : l.count a = 1)
    (h : ∀ x ∈ l, x ≠ a → g x = []) : (l.map g).flatten = g a := by
  induction l with
  | nil => simp at hc
  | cons b t ih =>
    by_cases hb : b = a
    · subst hb
      rw [List.count_cons_self] at hc
      have ht : t.count b = 0 := by omega
      rw [List.count_eq_zero] at ht
      have : (t.map g).flatten = [] :=
        flatten_map_eq_nil t g (fun x hx => h x (List.mem_cons_of_mem b hx)
          (fun hxa => ht (hxa ▸ hx)))
      simp [this]
    · rw [List.count_cons_of_ne (fun h => hb h.symm)] at hc
      have hgb : g b = [] := h b (List.mem_cons_self b t) hb
      simp only [List.map_cons, List.flatten_cons, hgb, List.nil_append]
      exact ih hc (fun x hx => h x (List.mem_cons_of_mem b hx))

/-! ## Component lemmas for the index phase -/

theorem indexPhase_deleted (env : Env) (outputDir : String) (folders : List Folder)
    (filesLen : Nat) (oldIndex : Option String) (deletedKeys : List String)
    (stL : LoopSt) :
    (indexPhase env outputDir folders filesLen oldIndex deletedKeys stL).deleted =
      deletedKeys := by
  unfold indexPhase
  cases env.tempIndexWriteFail with
  | some m => rfl
  | none =>
    cases env.tempIndexVerifyFail with
    | some m => rfl
    | none =>
      cases env.indexCopyFail with
      | some m => rfl
      | none =>
        by_cases hf : env.finalIndexReadOk = false
        · simp [hf]
        · simp [hf]

theorem indexPhase_builtIndex (env : Env) (outputDir : String) (folders : List Folder)
    (filesLen : Nat) (oldIndex : Option String) (deletedKeys : List String)
    (stL : LoopSt) :
    (indexPhase env outputDir folders filesLen oldIndex deletedKeys stL).builtIndex =
      some (buildIndex folders stL.converted) := by
  unfold indexPhase
  cases env.tempIndexWriteFail with
  | some m => rfl
  | none =>
    cases env.tempIndexVerifyFail with
    | some m => rfl
    | none =>
      cases env.indexCopyFail with
      | some m => rfl
      | none =>
        by_cases hf : env.finalIndexReadOk = false
        · simp [hf]
        · simp [hf]

theorem indexPhase_state_music (env : Env) (outputDir : String) (folders : List Folder)
    (filesLen : Nat) (oldIndex : Option String) (deletedKeys : List String)
    (stL : LoopSt) :
    (indexPhase env outputDir folders filesLen oldIndex deletedKeys stL).state.music =
      stL.music := by
  unfold indexPhase
  cases env.tempIndexWriteFail with
  | some m => rfl
  | none =>
    cases env.tempIndexVerifyFail with
    | some m => rfl
    | none =>
      cases env.indexCopyFail with
      | some m => rfl
      | none =>
        by_cases hf : env.finalIndexReadOk = false
        · simp [hf]
        · simp [hf]

theorem indexPhase_ops (env : Env) (outputDir : String) (folders : List Folder)
    (filesLen : Nat) (oldIndex : Option String) (deletedKeys : List String)
    (stL : LoopSt) :
    (indexPhase env outputDir folders filesLen oldIndex deletedKeys stL).ops =
      stL.ops ++
        indexExtraOps env (serializeIndex (buildIndex folders stL.converted)) := by
  unfold indexPhase indexExtraOps
  cases env.tempIndexWriteFail with
  | some m => simp
  | none =>
    cases env.tempIndexVerifyFail with
    | some m => simp
    | none =>
      cases env.indexCopyFail with
      | some m => simp
      | none =>
        by_cases hf : env.finalIndexReadOk = false
        · simp [hf]
        · simp [hf]

theorem indexExtraOps_no_unlink (env : Env) (content : String) :
    ∀ op ∈ indexExtraOps env content, op.isUnlink = false := by
  intro op hop
  unfold indexExtraOps at hop
  split at hop
  · cases hop
  · split at hop
    · cases hop
    · split at hop
      · cases hop
      · rw [List.mem_singleton] at hop
        subst hop
        rfl

theorem indexExtraOps_no_writeArtifact (env : Env) (content : String) :
    ∀ op ∈ indexExtraOps env content, op.isWriteArtifact = false := by
  intro op hop
  unfold indexExtraOps at hop
  split at hop
  · cases hop
  · split at hop
    · cases hop
    · split at hop
      · cases hop
      · rw [List.mem_singleton] at hop
        subst hop
        rfl

theorem indexPhase_errors (env : Env) (outputDir : String) (folders : List Folder)
    (filesLen : Nat) (oldIndex : Option String) (deletedKeys : List String)
    (stL : LoopSt) :
    (indexPhase env outputDir folders filesLen oldIndex deletedKeys stL).events.filter
        Event.isError =
      stL.events.filter Event.isError := by
  unfold indexPhase
  cases env.tempIndexWriteFail with
  | some m => rfl
  | none =>
    cases env.tempIndexVerifyFail with
    | some m => rfl
    | none =>
      cases env.indexCopyFail with
      | some m => rfl
      | none =>
        by_cases hf : env.finalIndexReadOk = false
        · simp [hf, List.filter_append, Event.isError]
        · simp [hf, List.filter_append, Event.isError]

theorem indexPhase_progressTotals (env : Env) (outputDir : String)
    (folders : List Folder) (filesLen : Nat) (oldIndex : Option String)
    (deletedKeys : List String) (stL : LoopSt) :
    progressTotals
        (indexPhase env outputDir folders filesLen oldIndex deletedKeys stL).events =
      progressTotals stL.events := by
  unfold indexPhase
  cases env.tempIndexWriteFail with
  | some m => rfl
  | none =>
    cases env.tempIndexVerifyFail with
    | some m => rfl
    | none =>
      cases env.indexCopyFail with
      | some m => rfl
      | none =>
        by_cases hf : env.finalIndexReadOk = false
        · simp [hf, progressTotals, List.filterMap_append]
        · simp [hf, progressTotals, List.filterMap_append]

theorem indexPhase_progressCurrents (env : Env) (outputDir : String)
    (folders : List Folder) (filesLen : Nat) (oldIndex : Option String)
    (deletedKeys : List String) (stL : LoopSt) :
    progressCurrents
        (indexPhase env outputDir folders filesLen oldIndex deletedKeys stL).events =
      progressCurrents stL.events := by
  unfold indexPhase
  cases env.tempIndexWriteFail with
  | some m => rfl
  | none =>
    cases env.tempIndexVerifyFail with
    | some m => rfl
    | none =>
      cases env.indexCopyFail with
      | some m => rfl
      | none =>
        by_cases hf : env.finalIndexReadOk = false
        · simp [hf, progressCurrents, List.filterMap_append]
        · simp [hf, progressCurrents, List.filterMap_append]

/-! ## Computation lemmas for the per-file summaries -/

theorem fileErrors_nil_of_valid (env : Env) (folders : List Folder)
    (outputDir : String) (ue : List String) (f : FileEntry)
    (hr : env.readable f.path = true)
    (hd : ∃ q, env.decode f.path = Except.ok q)
    (hw : env.writeFail (outputPathFor outputDir folders f) = none)
    (hv : env.verifyFail (outputPathFor outputDir folders f) = none) :
    fileErrors env folders outputDir ue f = [] := by
  obtain ⟨q, hq⟩ := hd
  by_cases hskip : relPathFor folders f ∈ ue
  · simp [fileErrors, hskip]
  · simp [fileErrors, hskip, hr, convertToPCM, hq, hw, hv]

theorem fileErrors_unreadable (env : Env) (folders : List Folder)
    (outputDir : String) (f : FileEntry)
    (hr : env.readable f.path = false) :
    fileErrors env folders outputDir [] f =
      [Event.error f.name (srcErrMsg env f.path)] := by
  simp [fileErrors, hr]

theorem fileErrors_writeFail (env : Env) (folders : List Folder)
    (outputDir : String) (f : FileEntry) (m : String)
    (hr : env.readable f.path = true)
    (hd : ∃ q, env.decode f.path = Except.ok q)
    (hw : env.writeFail (outputPathFor outputDir folders f) = some m) :
    fileErrors env folders outputDir [] f = [Event.error f.name m] := by
  obtain ⟨q, hq⟩ := hd
  simp [fileErrors, hr, convertToPCM, hq, hw]

theorem fileErrors_verifyFail (env : Env) (folders : List Folder)
    (outputDir : String) (f : FileEntry) (c : String)
    (hr : env.readable f.path = true)
    (hd : ∃ q, env.decode f.path = Except.ok q)
    (hw : env.writeFail (outputPathFor outputDir folders f) = none)
    (hv : env.verifyFail (outputPathFor outputDir folders f) = some c) :
    fileErrors env folders outputDir [] f =
      [Event.error f.name
        ("Failed to create output file: " ++ outputPathFor outputDir folders f)] := by
  obtain ⟨q, hq⟩ := hd
  simp [fileErrors, hr, convertToPCM, hq, hw, hv]

theorem fileConverted_valid (env : Env) (folders : List Folder)
    (outputDir : String) (f : FileEntry)
    (hr : env.readable f.path = true)
    (hd : ∃ q, env.decode f.path = Except.ok q)
    (hw : env.writeFail (outputPathFor outputDir folders f) = none)
    (hv : env.verifyFail (outputPathFor outputDir folders f) = none) :
    fileConverted env folders outputDir [] f = some
      { original := f.path, converted := outputPathFor outputDir folders f,
        name := f.name, relativePath := relPathFor folders f,
        sampleRate := 44100, bitDepth := 16, channels := 2,
        song := f.song, album := f.album, artist := f.artist } := by
  obtain ⟨q, hq⟩ := hd
  simp [fileConverted, hr, convertToPCM, hq, hw, hv]

theorem fileOps_of_decode (env : Env) (folders : List Folder)
    (outputDir : String) (f : FileEntry) (q : Bytes)
    (hr : env.readable f.path = true)
    (hq : env.decode f.path = Except.ok q)
    (hw : env.writeFail (outputPathFor outputDir folders f) = none) :
    fileOps env folders outputDir [] f =
      [Op.writeArtifact (relPathFor folders f) q] := by
  simp [fileOps, hr, convertToPCM, hq, hw]

theorem buildIndex_allFiles_names (folders : List Folder)
    (converted : List ConvertedFile) :
    (buildIndex folders converted).allFiles.map IndexFileEntry.name =
      converted.map ConvertedFile.name := by
  unfold buildIndex
  induction converted with
  | nil => rfl
  | cons c t ih => simp only [List.map_cons] at ih ⊢; rw [ih]

/-! ## Claim theorems -/

/-- C1: the claim states that re-running a sync with an unchanged request
against the same device performs zero conversions AND writes a byte-identical
`index.json`.  The code violates the second half: the index is rebuilt from
`convertedFiles` only (lines 647-687), and files skipped at lines 507-510 are
never added to `convertedFiles`, so the second run writes an index with
`totalFiles: 0` and empty file lists.  This theorem evaluates both runs: the
second run indeed performs zero artifact writes, yet the `index.json` it
leaves on the device differs from the first run's. -/
theorem second_sync_zero_conversions_but_index_differs :
    runSecond.ops.filter Op.isWriteArtifact = [] ∧
      runSecond.state.index ≠ runFirst.state.index ∧
      (runSecond.builtIndex.map IndexData.totalFiles = some 0 ∧
        runFirst.builtIndex.map IndexData.totalFiles = some 2) := by
  refine ⟨by decide, by decide, by decide, by decide⟩

/-- C2: the claim states that after any completed sync every on-device
artifact (except `index.json`) appears in the index.  The code violates this:
a file already present on the device is skipped (lines 507-510) and therefore
absent from `convertedFiles`, from which alone the index is built
(lines 647-687).  Evaluation: the sync completes, `Pop/song1.pcm` is on the
device, its conversion did not fail, yet the written index lists no files at
all. -/
theorem completed_sync_index_omits_skipped_artifact :
    runSkip.response = Response.streamDone ∧
      runSkip.state.music.map Prod.fst = ["Pop/song1.pcm"] ∧
      runSkip.builtIndex.map (fun d => d.allFiles.map IndexFileEntry.path) =
        some [] ∧
      runSkip.events.filter Event.isError = [] := by
  refine ⟨by decide, by decide, by decide, by decide⟩

/-- C3: the claim states every artifact is a 32-byte header (magic, LE sample
rate, LE bit depth, LE channels, LE payload size, 12 zero bytes) followed by
the raw PCM payload.  The current `convertToPCM` (lines 790-835) writes the
plain payload with no header (line 824, `// Write plain PCM`); the
`createPCMHeader` builder exists only in an earlier revision kept in the
repository.  Evaluation: the artifact produced for a 4-byte payload is
exactly the payload, which is not the header-prefixed form and does not start
with the magic. -/
theorem artifact_is_plain_payload_without_header :
    (runFirst.state.music.find? (fun e => e.1 = "Pop/song1.pcm")).map Prod.snd =
        some [1, 2, 3, 4] ∧
      ([1, 2, 3, 4] : Bytes) ≠ createPCMHeader 44100 16 2 4 ++ [1, 2, 3, 4] ∧
      ([1, 2, 3, 4] : Bytes).take 8 ≠ magicESP32PCM ∧
      createPCMHeader 44100 16 2 4 =
        [69, 83, 80, 51, 50, 80, 67, 77, 68, 172, 0, 0, 16, 0, 2, 0,
         4, 0, 0, 0, 0, 0, 0, 0, 0, 0, 0, 0, 0, 0, 0, 0] := by
  refine ⟨by decide, by decide, by decide, by decide⟩

/-- C7 counterexample: the claim states that a failure at ANY index
write/verify stage makes the whole sync fatal.  When only the final on-device
re-verification fails (lines 738-740 swallow the error), the sync still ends
with the `complete` event and a normal end of stream, not a fatal
response. -/
theorem final_index_verify_failure_not_fatal :
    runNoFinal.response = Response.streamDone ∧
      Event.complete "Successfully converted 1 files" "/sd/ESP32_MUSIC" 1 1 1 ∈
        runNoFinal.events := by
  refine ⟨by decide, by decide⟩

/-- C8 counterexample: the claim states the error reported for a destination
write/verification failure carries a cause-specific message distinguishing
out-of-space, read-only and generic I/O causes.  The verification failure
path (lines 605-608) throws the fixed string `Failed to create output file:
<path>` whatever the underlying cause: an out-of-space cause and a read-only
cause produce byte-identical error events. -/
theorem destination_verify_error_message_ignores_cause :
    runVerifyNoSpace.events.filter Event.isError =
        [Event.error "song1.mp3"
          "Failed to create output file: /sd/ESP32_MUSIC/Pop/song1.pcm"] ∧
      runVerifyReadOnly.events.filter Event.isError =
        runVerifyNoSpace.events.filter Event.isError ∧
      envVerifyNoSpace.verifyFail "/sd/ESP32_MUSIC/Pop/song1.pcm" ≠
        envVerifyReadOnly.verifyFail "/sd/ESP32_MUSIC/Pop/song1.pcm" := by
  refine ⟨by decide, by decide, by decide⟩

/-- C9 counterexample: the claim states each progress event's `total` equals
the size of `toCreate` (the files actually needing conversion).  With one of
two requested files already on the device, only one file is converted, yet
the single progress event carries `total = 2` (`totalFiles = files.length`,
lines 426, 570). -/
theorem progress_total_is_request_size_not_toCreate :
    (runHalf.ops.filter Op.isWriteArtifact).length = 1 ∧
      progressTotals runHalf.events = [2] ∧ (2 : Nat) ≠ 1 := by
  refine ⟨by decide, by decide, by decide⟩

/-- C6: if the device root is missing, not a directory or unwritable, or the
artifacts output directory cannot be created or probed writable, the sync
aborts with a single non-streamed `error` response and performs no mutation
of the device's music contents: no events were streamed, no unlink or write
was performed, and the device state is untouched. -/
theorem precondition_failure_aborts_without_mutation (env : Env)
    (files : List FileEntry) (lib : LibraryStructure) (devicePath : String)
    (st0 : DeviceState)
    (h : env.deviceStat ≠ StatResult.dir ∨ env.rootProbe = false ∨
      env.rootProbe2 = false ∨ env.mkdirOutputOk = false ∨
      env.outputProbe = false) :
    (∃ m, (convertAndFlash env files lib devicePath st0).response = .fatal m) ∧
      (convertAndFlash env files lib devicePath st0).events = [] ∧
      (convertAndFlash env files lib devicePath st0).state = st0 ∧
      (convertAndFlash env files lib devicePath st0).ops = [] := by
  unfold convertAndFlash
  by_cases h1 : env.deviceStat ≠ StatResult.dir
  · rw [if_pos h1]
    exact ⟨⟨_, rfl⟩, rfl, rfl, rfl⟩
  · rw [if_neg h1]
    by_cases h2 : env.rootProbe = false
    · rw [if_pos h2]
      exact ⟨⟨_, rfl⟩, rfl, rfl, rfl⟩
    · rw [if_neg h2]
      by_cases h3 : env.rootProbe2 = false
      · rw [if_pos h3]
        exact ⟨⟨_, rfl⟩, rfl, rfl, rfl⟩
      · rw [if_neg h3]
        by_cases h4 : env.mkdirOutputOk = false ∨ env.outputProbe = false
        · rw [if_pos h4]
          exact ⟨⟨_, rfl⟩, rfl, rfl, rfl⟩
        · exfalso
          rcases h with h | h | h | h | h
          · exact h1 h
          · exact h2 h
          · exact h3 h
          · exact h4 (Or.inl h)
          · exact h4 (Or.inr h)

/-- C6 witness: with the `testDirectoryWritable` probe on the device root
failing, the endpoint answers a single fatal response, streams nothing,
performs no operation and leaves the preloaded device untouched. -/
theorem precondition_failure_witness :
    envReadOnlyRoot.rootProbe2 = false ∧
      ((∃ m, (convertAndFlash envReadOnlyRoot popFiles popLib "/sd"
          preloadedDevice).response = .fatal m) ∧
        (convertAndFlash envReadOnlyRoot popFiles popLib "/sd"
          preloadedDevice).events = [] ∧
        (convertAndFlash envReadOnlyRoot popFiles popLib "/sd"
          preloadedDevice).state = preloadedDevice ∧
        (convertAndFlash envReadOnlyRoot popFiles popLib "/sd"
          preloadedDevice).ops = []) :=
  ⟨by decide,
    precondition_failure_aborts_without_mutation envReadOnlyRoot popFiles popLib
      "/sd" preloadedDevice (Or.inr (Or.inr (Or.inl (by decide))))⟩

/-- C4: for every sync whose preconditions pass and whose unlink calls
succeed, the artifacts deleted are exactly `existing − desired` (the device
scan's relative paths minus the desired relative paths computed from the
library structure), and every unlink operation precedes every other device
operation in the trace: removing one file from the desired layout therefore
deletes exactly that file's artifact. -/
theorem deletions_equal_existing_minus_desired_and_precede_conversions
    (env : Env) (files : List FileEntry) (lib : LibraryStructure)
    (devicePath : String) (st0 : DeviceState)
    (hpre : preOK env) (hunlink : ∀ p, env.unlinkFail p = false) :
    (convertAndFlash env files lib devicePath st0).deleted =
        (st0.music.map Prod.fst).filter
          (fun p => !((desiredRelPaths lib.musicFolders).contains p)) ∧
      ∃ rest, (convertAndFlash env files lib devicePath st0).ops =
          ((st0.music.map Prod.fst).filter
              (fun p => !((desiredRelPaths lib.musicFolders).contains p))).map
            Op.unlink ++ rest ∧
        ∀ op ∈ rest, op.isUnlink = false := by
  rw [convertAndFlash_of_preOK env files lib devicePath st0 hpre]
  constructor
  · unfold syncBody
    rw [indexPhase_deleted, map_fst_filter_comm]
    refine congrArg (List.map Prod.fst) ?_
    apply filter_congr_list
    intro e _
    rw [hunlink e.1]
    simp
  · unfold syncBody
    rw [indexPhase_ops, runFiles_ops]
    have hhead : ((st0.music.map Prod.fst).filter
          (fun p => !((desiredRelPaths lib.musicFolders).contains p))).map Op.unlink =
        (st0.music.filter (fun e =>
          !((desiredRelPaths lib.musicFolders).contains e.1))).map
          (fun e => Op.unlink e.1) := by
      rw [map_fst_filter_comm, List.map_map]
      rfl
    rw [hhead, List.append_assoc]
    refine ⟨_, rfl, ?_⟩
    intro op hop
    rcases List.mem_append.mp hop with hin | hin
    · obtain ⟨l, hl, hopl⟩ := List.mem_flatten.mp hin
      obtain ⟨f, _, rfl⟩ := List.mem_map.mp hl
      exact fileOps_no_unlink _ _ _ _ _ _ hopl
    · exact indexExtraOps_no_unlink _ _ _ hin

/-- C4 witness: the theorem applied to the two-folder library against a
device holding one desired and one obsolete artifact. -/
theorem deletions_witness :
    (convertAndFlash envOK popRockFiles popRockLib "/sd"
        ⟨[("Pop/song1.pcm", [1, 2, 3, 4]), ("Old/gone.pcm", [5])], none⟩).deleted =
      (((⟨[("Pop/song1.pcm", [1, 2, 3, 4]), ("Old/gone.pcm", [5])], none⟩ :
          DeviceState).music.map Prod.fst).filter
        (fun p => !((desiredRelPaths popRockLib.musicFolders).contains p))) :=
  (deletions_equal_existing_minus_desired_and_precede_conversions envOK
    popRockFiles popRockLib "/sd" _ ⟨rfl, rfl, rfl, rfl, rfl⟩
    (fun _ => rfl)).1

/-- C7 amended: the index is written via staging, parse verification, copy,
and on-device re-verification; a failure of the staged write, the staged
parse, or the copy makes the whole sync fatal with the wrapping message, and
already-written artifacts stay on the device (every written relative path is
still a key of the final music map); but a failure of the final on-device
re-verification is only logged and the sync still completes normally. -/
theorem index_write_stage_failures (env : Env) (files : List FileEntry)
    (lib : LibraryStructure) (devicePath : String) (st0 : DeviceState)
    (hpre : preOK env) :
    (∀ m, env.tempIndexWriteFail = some m →
      (convertAndFlash env files lib devicePath st0).response =
        .fatal (wrapIndexFatalMsg m)) ∧
    (∀ m, env.tempIndexWriteFail = none → env.tempIndexVerifyFail = some m →
      (convertAndFlash env files lib devicePath st0).response =
        .fatal (wrapIndexFatalMsg m)) ∧
    (∀ m, env.tempIndexWriteFail = none → env.tempIndexVerifyFail = none →
      env.indexCopyFail = some m →
      (convertAndFlash env files lib devicePath st0).response =
        .fatal (wrapIndexFatalMsg m)) ∧
    (indexPhaseOK env → env.finalIndexReadOk = false →
      (convertAndFlash env files lib devicePath st0).response =
        Response.streamDone) ∧
    (∀ rel d, Op.writeArtifact rel d ∈ (convertAndFlash env files lib devicePath st0).ops →
      rel ∈ (convertAndFlash env files lib devicePath st0).state.music.map Prod.fst) := by
  rw [convertAndFlash_of_preOK env files lib devicePath st0 hpre]
  refine ⟨?_, ?_, ?_, ?_, ?_⟩
  · intro m hm
    unfold syncBody
    rw [indexPhase_write_fatal _ _ _ _ _ _ _ m hm]
  · intro m h1 h2
    unfold syncBody
    rw [indexPhase_verify_fatal _ _ _ _ _ _ _ m h1 h2]
  · intro m h1 h2 h3
    unfold syncBody
    rw [indexPhase_copy_fatal _ _ _ _ _ _ _ m h1 h2 h3]
  · intro hidx _
    unfold syncBody
    exact indexPhase_response_ok _ _ _ _ _ _ _ hidx
  · intro rel d hop
    unfold syncBody at hop ⊢
    rw [indexPhase_ops] at hop
    rw [indexPhase_state_music]
    rcases List.mem_append.mp hop with hin | hin
    · refine runFiles_opsCovered env lib.musicFolders _ _ _ files _ ?_ rel d hin
      intro rel' d' hin'
      exfalso
      obtain ⟨e, _, he⟩ := List.mem_map.mp hin'
      exact Op.noConfusion he
    · exfalso
      have hw := indexExtraOps_no_writeArtifact _ _ _ hin
      simp [Op.isWriteArtifact] at hw

/-- C7 witness: with a failing staged index write, the endpoint answers the
wrapped fatal message. -/
theorem index_write_stage_failures_witness :
    (convertAndFlash envIndexWriteFail popFiles popLib "/sd" emptyDevice).response =
      Response.fatal (wrapIndexFatalMsg "disk error") :=
  (index_write_stage_failures envIndexWriteFail popFiles popLib "/sd" emptyDevice
    ⟨rfl, rfl, rfl, rfl, rfl⟩).1 "disk error" rfl

/-- C9 amended: during conversion a progress event is emitted for each
non-skipped file before its attempt; every such event carries
`total = files.length` (the full request size, not the `toCreate` size) and a
`current` value of `processedFiles + 1`, which never decreases (it repeats
after a failed file, because `processedFiles` counts only successes). -/
theorem progress_events_shape (env : Env) (files : List FileEntry)
    (lib : LibraryStructure) (devicePath : String) (st0 : DeviceState)
    (hpre : preOK env) :
    (∀ t ∈ progressTotals (convertAndFlash env files lib devicePath st0).events,
        t = files.length) ∧
      List.Chain' (· ≤ ·)
        (progressCurrents (convertAndFlash env files lib devicePath st0).events) ∧
      (progressCurrents (convertAndFlash env files lib devicePath st0).events).length =
        (files.filter (fun f => !(fileSkipped lib.musicFolders
          ((st0.music.filter (fun e =>
            (desiredRelPaths lib.musicFolders).contains e.1 ||
              env.unlinkFail e.1)).map Prod.fst) f))).length := by
  rw [convertAndFlash_of_preOK env files lib devicePath st0 hpre]
  unfold syncBody
  refine ⟨?_, ?_, ?_⟩
  · rw [indexPhase_progressTotals]
    refine runFiles_totals _ _ _ _ _ files _ ?_
    intro t ht
    simp [progressTotals] at ht
  · rw [indexPhase_progressCurrents]
    refine (runFiles_progress_chain _ _ _ _ _ files _ ?_ ?_).1
    · simp [progressCurrents]
    · intro c hc
      simp [progressCurrents] at hc
  · rw [indexPhase_progressCurrents, runFiles_progress_count]
    simp [progressCurrents]

/-- C9 witness: on the two-file request against the half-populated device,
exactly one progress event is emitted - one per non-skipped file. -/
theorem progress_events_shape_witness :
    (progressCurrents (convertAndFlash envOK popRockFiles popRockLib "/sd"
        halfDevice).events).length = 1 :=
  ((progress_events_shape envOK popRockFiles popRockLib "/sd" halfDevice
    ⟨rfl, rfl, rfl, rfl, rfl⟩).2.2).trans (by decide)

/-- C10: when deleting an obsolete artifact fails, the failure is swallowed:
no error event reaches the stream, the sync still completes, the stale
artifact is still on the device afterwards, and the other obsolete artifacts
are still deleted. -/
theorem failed_deletion_swallowed_sync_continues (env : Env)
    (files : List FileEntry) (lib : LibraryStructure) (devicePath : String)
    (st0 : DeviceState) (p : String)
    (hpre : preOK env) (hidx : indexPhaseOK env)
    (hp : p ∈ st0.music.map Prod.fst)
    (_hobsolete : (desiredRelPaths lib.musicFolders).contains p = false)
    (hfailp : env.unlinkFail p = true)
    (hall : ∀ f ∈ files, env.readable f.path = true ∧
      (∃ q, env.decode f.path = Except.ok q) ∧
      env.writeFail (outputPathFor (devicePath ++ "/ESP32_MUSIC") lib.musicFolders f) = none ∧
      env.verifyFail (outputPathFor (devicePath ++ "/ESP32_MUSIC") lib.musicFolders f) = none) :
    (convertAndFlash env files lib devicePath st0).events.filter Event.isError = [] ∧
      (convertAndFlash env files lib devicePath st0).response = Response.streamDone ∧
      p ∈ (convertAndFlash env files lib devicePath st0).state.music.map Prod.fst ∧
      ∀ q ∈ st0.music.map Prod.fst,
        (desiredRelPaths lib.musicFolders).contains q = false →
        env.unlinkFail q = false →
        q ∈ (convertAndFlash env files lib devicePath st0).deleted := by
  rw [convertAndFlash_of_preOK env files lib devicePath st0 hpre]
  unfold syncBody
  refine ⟨?_, ?_, ?_, ?_⟩
  · rw [indexPhase_errors, runFiles_errors]
    rw [flatten_map_eq_nil _ _ (fun f hf => fileErrors_nil_of_valid env
      lib.musicFolders _ _ f (hall f hf).1 (hall f hf).2.1 (hall f hf).2.2.1
      (hall f hf).2.2.2)]
    simp [Event.isError]
  · exact indexPhase_response_ok _ _ _ _ _ _ _ hidx
  · rw [indexPhase_state_music]
    apply runFiles_keys_mono
    obtain ⟨e, he, hfst⟩ := List.mem_map.mp hp
    refine List.mem_map.mpr ⟨e, ?_, hfst⟩
    rw [List.mem_filter]
    refine ⟨he, ?_⟩
    rw [hfst, hfailp]
    simp
  · intro q hq hqdes hqfail
    rw [indexPhase_deleted]
    obtain ⟨e, he, hfst⟩ := List.mem_map.mp hq
    refine List.mem_map.mpr ⟨e, ?_, hfst⟩
    rw [List.mem_filter]
    refine ⟨he, ?_⟩
    rw [hfst, hqdes, hqfail]
    rfl

/-- C10 witness: the sync against a device holding a stale artifact whose
unlink fails leaves that artifact on the device while completing normally. -/
theorem failed_deletion_witness :
    "Stale/old.pcm" ∈ (convertAndFlash envStaleUnlink popFiles popLib "/sd"
        staleDevice).state.music.map Prod.fst :=
  (failed_deletion_swallowed_sync_continues envStaleUnlink popFiles popLib "/sd"
    staleDevice "Stale/old.pcm" ⟨rfl, rfl, rfl, rfl, rfl⟩ ⟨rfl, rfl, rfl⟩
    (by decide) (by decide) (by decide)
    (by
      intro f hf
      simp only [popFiles, List.mem_singleton] at hf
      subst hf
      exact ⟨rfl, ⟨[1, 2, 3, 4], rfl⟩, rfl, rfl⟩)).2.2.1

/-- C5: if exactly one request file has an unreadable source and every other
file is fully valid, the sync still completes, converts every other file and
records it in the index, and emits exactly one error event, which names the
invalid file. -/
theorem single_invalid_source_isolated (env : Env) (files : List FileEntry)
    (lib : LibraryStructure) (devicePath : String) (st0 : DeviceState)
    (bad : FileEntry)
    (hpre : preOK env) (hidx : indexPhaseOK env) (hdev : st0.music = [])
    (_hmem : bad ∈ files)
    (hbad : env.readable bad.path = false)
    (huniq : ∀ f ∈ files, f.path = bad.path → f = bad)
    (hcount : files.count bad = 1)
    (hvalid : ∀ f ∈ files, f.path ≠ bad.path →
      env.readable f.path = true ∧
      (∃ q, env.decode f.path = Except.ok q) ∧
      env.writeFail (outputPathFor (devicePath ++ "/ESP32_MUSIC") lib.musicFolders f) = none ∧
      env.verifyFail (outputPathFor (devicePath ++ "/ESP32_MUSIC") lib.musicFolders f) = none) :
    (convertAndFlash env files lib devicePath st0).response = Response.streamDone ∧
      (convertAndFlash env files lib devicePath st0).events.filter Event.isError =
        [Event.error bad.name (srcErrMsg env bad.path)] ∧
      ∀ f ∈ files, f.path ≠ bad.path →
        (∃ d, (convertAndFlash env files lib devicePath st0).builtIndex = some d ∧
          f.name ∈ d.allFiles.map IndexFileEntry.name) ∧
        ∃ q, Op.writeArtifact (relPathFor lib.musicFolders f) q ∈
          (convertAndFlash env files lib devicePath st0).ops := by
  rw [convertAndFlash_of_preOK env files lib devicePath st0 hpre]
  unfold syncBody
  rw [hdev]
  simp only [List.filter_nil, List.map_nil]
  have hvalidNil : ∀ f ∈ files, f ≠ bad →
      fileErrors env lib.musicFolders (devicePath ++ "/ESP32_MUSIC") [] f = [] := by
    intro f hf hne
    have hpath : f.path ≠ bad.path := fun hp => hne (huniq f hf hp)
    obtain ⟨hr, hd, hw, hv⟩ := hvalid f hf hpath
    exact fileErrors_nil_of_valid env lib.musicFolders _ [] f hr hd hw hv
  refine ⟨?_, ?_, ?_⟩
  · exact indexPhase_response_ok _ _ _ _ _ _ _ hidx
  · rw [indexPhase_errors, runFiles_errors,
      flatten_map_single files _ bad hcount hvalidNil,
      fileErrors_unreadable env lib.musicFolders _ bad hbad]
    rfl
  · intro f hf hne
    obtain ⟨hr, ⟨q, hq⟩, hw, hv⟩ := hvalid f hf hne
    constructor
    · refine ⟨_, indexPhase_builtIndex _ _ _ _ _ _ _, ?_⟩
      rw [buildIndex_allFiles_names, runFiles_converted]
      refine List.mem_map.mpr ⟨_, List.mem_append.mpr (Or.inr
        (List.mem_filterMap.mpr ⟨f, hf,
          fileConverted_valid env lib.musicFolders _ f hr ⟨q, hq⟩ hw hv⟩)), rfl⟩
    · refine ⟨q, ?_⟩
      rw [indexPhase_ops]
      refine List.mem_append.mpr (Or.inl ?_)
      rw [runFiles_ops]
      refine List.mem_append.mpr (Or.inr ?_)
      refine List.mem_flatten.mpr ⟨_, List.mem_map.mpr ⟨f, hf, rfl⟩, ?_⟩
      rw [fileOps_of_decode env lib.musicFolders _ f q hr hq hw]
      exact List.mem_singleton.mpr rfl

/-- C5 witness: with `/music/song2.mp3` unreadable and `/music/song1.mp3`
valid, the stream carries exactly one error event and it names
`song2.mp3`. -/
theorem single_invalid_source_witness :
    (convertAndFlash envBadSource popRockFiles popRockLib "/sd"
        emptyDevice).events.filter Event.isError =
      [Event.error "song2.mp3" (srcErrMsg envBadSource "/music/song2.mp3")] :=
  (single_invalid_source_isolated envBadSource popRockFiles popRockLib "/sd"
    emptyDevice badEntry ⟨rfl, rfl, rfl, rfl, rfl⟩ ⟨rfl, rfl, rfl⟩ rfl
    (by decide) (by decide) (by decide) (by decide)
    (by
      intro f hf hne
      simp only [popRockFiles, List.mem_cons, List.not_mem_nil, or_false] at hf
      rcases hf with rfl | rfl
      · exact ⟨rfl, ⟨[1, 2, 3, 4], rfl⟩, rfl, rfl⟩
      · exact absurd rfl hne)).2.1

/-- C8 amended: a destination write failure is reported with the underlying
rejection message passed through verbatim, and a post-write verification
failure with the fixed message `Failed to create output file: <path>` -
neither is mapped to the out-of-space / read-only / generic cause-specific
messages the spec describes - and in both cases the sync continues: every
other valid file is still converted and the run completes normally. -/
theorem destination_failure_reported_and_sync_continues (env : Env)
    (files : List FileEntry) (lib : LibraryStructure) (devicePath : String)
    (st0 : DeviceState) (fb : FileEntry)
    (hpre : preOK env) (hidx : indexPhaseOK env) (hdev : st0.music = [])
    (_hmem : fb ∈ files) (hcount : files.count fb = 1)
    (hread : env.readable fb.path = true)
    (hdec : ∃ q, env.decode fb.path = Except.ok q)
    (hothers : ∀ f ∈ files, f ≠ fb →
      env.readable f.path = true ∧
      (∃ q, env.decode f.path = Except.ok q) ∧
      env.writeFail (outputPathFor (devicePath ++ "/ESP32_MUSIC") lib.musicFolders f) = none ∧
      env.verifyFail (outputPathFor (devicePath ++ "/ESP32_MUSIC") lib.musicFolders f) = none) :
    (convertAndFlash env files lib devicePath st0).response = Response.streamDone ∧
      (∀ m, env.writeFail (outputPathFor (devicePath ++ "/ESP32_MUSIC")
          lib.musicFolders fb) = some m →
        (convertAndFlash env files lib devicePath st0).events.filter Event.isError =
          [Event.error fb.name m]) ∧
      (env.writeFail (outputPathFor (devicePath ++ "/ESP32_MUSIC")
          lib.musicFolders fb) = none →
        ∀ c, env.verifyFail (outputPathFor (devicePath ++ "/ESP32_MUSIC")
          lib.musicFolders fb) = some c →
        (convertAndFlash env files lib devicePath st0).events.filter Event.isError =
          [Event.error fb.name
            ("Failed to create output file: " ++
              outputPathFor (devicePath ++ "/ESP32_MUSIC") lib.musicFolders fb)]) ∧
      ∀ f ∈ files, f ≠ fb →
        ∃ q, Op.writeArtifact (relPathFor lib.musicFolders f) q ∈
          (convertAndFlash env files lib devicePath st0).ops := by
  rw [convertAndFlash_of_preOK env files lib devicePath st0 hpre]
  unfold syncBody
  rw [hdev]
  simp only [List.filter_nil, List.map_nil]
  have hothersNil : ∀ f ∈ files, f ≠ fb →
      fileErrors env lib.musicFolders (devicePath ++ "/ESP32_MUSIC") [] f = [] := by
    intro f hf hne
    obtain ⟨hr, hd, hw, hv⟩ := hothers f hf hne
    exact fileErrors_nil_of_valid env lib.musicFolders _ [] f hr hd hw hv
  refine ⟨?_, ?_, ?_, ?_⟩
  · exact indexPhase_response_ok _ _ _ _ _ _ _ hidx
  · intro m hm
    rw [indexPhase_errors, runFiles_errors,
      flatten_map_single files _ fb hcount hothersNil,
      fileErrors_writeFail env lib.musicFolders _ fb m hread hdec hm]
    rfl
  · intro hw c hc
    rw [indexPhase_errors, runFiles_errors,
      flatten_map_single files _ fb hcount hothersNil,
      fileErrors_verifyFail env lib.musicFolders _ fb c hread hdec hw hc]
    rfl
  · intro f hf hne
    obtain ⟨hr, ⟨q, hq⟩, hw, _⟩ := hothers f hf hne
    refine ⟨q, ?_⟩
    rw [indexPhase_ops]
    refine List.mem_append.mpr (Or.inl ?_)
    rw [runFiles_ops]
    refine List.mem_append.mpr (Or.inr ?_)
    refine List.mem_flatten.mpr ⟨_, List.mem_map.mpr ⟨f, hf, rfl⟩, ?_⟩
    rw [fileOps_of_decode env lib.musicFolders _ f q hr hq hw]
    exact List.mem_singleton.mpr rfl

/-- C8 witness: with the destination write for `Rock/song2.pcm` rejecting
with message `boom`, the stream carries exactly that message as the error,
and the run still converts `Pop/song1.pcm`. -/
theorem destination_failure_witness :
    (convertAndFlash envBadWrite popRockFiles popRockLib "/sd"
        emptyDevice).events.filter Event.isError =
      [Event.error "song2.mp3" "boom"] :=
  (destination_failure_reported_and_sync_continues envBadWrite popRockFiles
    popRockLib "/sd" emptyDevice badEntry ⟨rfl, rfl, rfl, rfl, rfl⟩
    ⟨rfl, rfl, rfl⟩ rfl (by decide) (by decide) rfl ⟨[1, 2, 3, 4], rfl⟩
    (by
      intro f hf hne
      simp only [popRockFiles, List.mem_cons, List.not_mem_nil, or_false] at hf
      rcases hf with rfl | rfl
      · exact ⟨rfl, ⟨[1, 2, 3, 4], rfl⟩, by decide, rfl⟩
      · exact absurd rfl hne)).2.1 "boom" (by decide)

end ESP32Sync
